import Mathlib

/-!
Verification development for the PyTerm bootloader sources.

The C sources are shallowly embedded: C strings become lists of
characters, C arrays of string pointers become lists of optional
strings (a calloc-initialized slot is none until it is filled), and
fallible operations return Option. Machine-integer wraparound is made
explicit where it matters (the signed-char cast in the parent-level
parsing). Functions keep the names of the C functions they embed.
-/

namespace PyTerm

/-- A C narrow-character string, modelled as its list of characters
(terminating NUL excluded; C strings cannot contain NUL). Wide-char
strings produced by mbstowcs from ASCII input are modelled by the same
type, since the conversion is the identity on the character sequence. -/
abbrev CStr := List Char

/-- Character list of a Lean string literal; used to write C string
literals in the embedding. -/
def cstr (s : String) : CStr := s.data

/-! ## Archive data model (pyi_archive.h interface, as used by the
embedded functions) -/

/-- Typecodes of TOC entries, restricted to the constructors the
embedded functions inspect (ARCHIVE_ITEM_RUNTIME_OPTION,
ARCHIVE_ITEM_PYMODULE, ARCHIVE_ITEM_PYPACKAGE, ARCHIVE_ITEM_PYZ);
every other typecode behaves uniformly and is collapsed into one
constructor. -/
inductive Typecode where
  | pymodule
  | pypackage
  | pyz
  | runtimeOption
  | other
deriving DecidableEq

/-- A TOC entry, with the fields read by the embedded functions. -/
structure TOC_ENTRY where
  typecode : Typecode
  name : CStr
  offset : Nat
  uncompressed_length : Nat
deriving DecidableEq

/-- The TOC as the ordered sequence of its entries; the C iteration
from archive.toc to archive.toc_end via pyi_archive_next_toc_entry
visits exactly this sequence in order. -/
abbrev TOC := List TOC_ENTRY

/-- The archive handle fields read by pyi_python_install_pyz. -/
structure ARCHIVE where
  toc : TOC
  pkg_offset : Nat
  archive_filename : CStr

/-! ## Runtime options parser (pyi_runtime_options_read and helpers) -/

/-- Embeds _pyi_match_key_value_flag: match the name of a name=value
flag; on a match return the value string (empty when the flag is the
bare name), otherwise none. A name that is a proper prefix not
followed by an equals sign or a space is not a match. -/
def pyi_match_key_value_flag (flag name : CStr) : Option CStr :=
  if name.isPrefixOf flag then
    match flag.drop name.length with
    | [] => some []
    | c :: rest => if c = '=' ∨ c = ' ' then some rest else none
  else none

/-- Embeds _pyi_match_and_parse_xflag: if the flag matches the given
name, write 1 for a bare name or any value other than the string 0,
and 0 for the value 0; otherwise leave the destination unchanged. -/
def pyi_match_and_parse_xflag (flag name : CStr) (dest_var : Int) : Int :=
  match pyi_match_key_value_flag flag name with
  | none => dest_var
  | some value_str =>
    match value_str with
    | [] => 1
    | _ :: _ => if value_str = cstr "0" then 0 else 1

/-- Decimal digit value, used by the strtoul model. -/
def decDigitVal (c : Char) : Option Nat :=
  if '0' ≤ c ∧ c ≤ '9' then some (c.toNat - '0'.toNat) else none

/-- Accumulating digit scan for a given digit-value function: returns
the accumulated value, the number of digits consumed, and the rest of
the string. -/
def scanDigits (dv : Char → Option Nat) (base : Nat) : CStr → Nat → Nat × Nat × CStr
  | [], acc => (acc, 0, [])
  | c :: rest, acc =>
    match dv c with
    | some d =>
      let r := scanDigits dv base rest (acc * base + d)
      (r.1, r.2.1 + 1, r.2.2)
    | none => (acc, 0, c :: rest)

/-- Model of strtoul(value_str, NULL, 10) on the hash_seed value: the
numeric value of the longest run of leading decimal digits after
optional leading spaces (the sign handling and unsigned-long
wraparound of strtoul are not exercised by the build tool and are not
modelled). -/
def strtoul10 (s : CStr) : Nat :=
  (scanDigits decDigitVal 10 (s.dropWhile (fun c => c = ' ')) 0).1

/-- Embeds struct PyiRuntimeOptions. The four flag arrays are
optional lists: none models a NULL pointer (the array of the inactive
protocol is never allocated), and each slot of an allocated array is
none until the collect pass stores a string into it (calloc zeroes
the slots). -/
structure PyiRuntimeOptions where
  verbose : Int
  unbuffered : Int
  optimize : Int
  use_hash_seed : Int
  hash_seed : Nat
  utf8_mode : Int
  dev_mode : Int
  num_wflags : Nat
  num_xflags : Nat
  wflags : Option (List (Option CStr))
  wflags_w : Option (List (Option CStr))
  xflags : Option (List (Option CStr))
  xflags_w : Option (List (Option CStr))
deriving DecidableEq

/-- The zero-initialized options record produced by calloc in
pyi_runtime_options_read, before the utf8_mode default is applied. -/
def PyiRuntimeOptions.zeroed : PyiRuntimeOptions :=
  { verbose := 0, unbuffered := 0, optimize := 0, use_hash_seed := 0,
    hash_seed := 0, utf8_mode := 0, dev_mode := 0,
    num_wflags := 0, num_xflags := 0,
    wflags := none, wflags_w := none, xflags := none, xflags_w := none }

/-- One entry of the first (counting) pass of pyi_runtime_options_read,
operating on the options record and the two local counters num_wflags
and num_xflags. The chain of checks mirrors the C if/continue chain:
skip non-option entries, skip bootloader options with the pyi- name
head, then v/verbose, u/unbuffered, O/optimize, W-flags, X-flags, and
finally the hash_seed key-value flag. -/
def scanStep (st : PyiRuntimeOptions × Nat × Nat) (e : TOC_ENTRY) :
    PyiRuntimeOptions × Nat × Nat :=
  let opts := st.1
  let nw := st.2.1
  let nx := st.2.2
  if e.typecode ≠ Typecode.runtimeOption then st
  else if (cstr "pyi-").isPrefixOf e.name then st
  else if e.name = cstr "v" ∨ e.name = cstr "verbose" then
    ({ opts with verbose := opts.verbose + 1 }, nw, nx)
  else if e.name = cstr "u" ∨ e.name = cstr "unbuffered" then
    ({ opts with unbuffered := 1 }, nw, nx)
  else if e.name = cstr "O" ∨ e.name = cstr "optimize" then
    ({ opts with optimize := opts.optimize + 1 }, nw, nx)
  else if (cstr "W ").isPrefixOf e.name then (opts, nw + 1, nx)
  else if (cstr "X ").isPrefixOf e.name then (opts, nw, nx + 1)
  else
    match pyi_match_key_value_flag e.name (cstr "hash_seed") with
    | some (c :: rest) =>
      ({ opts with use_hash_seed := 1, hash_seed := strtoul10 (c :: rest) }, nw, nx)
    | _ => st

/-- Model of the C store arr[i] = v into a string array: fails (none)
when the array pointer is NULL or the index is out of bounds, which in
the C source is undefined behaviour rather than a checked error. -/
def writeFlag (a : Option (List (Option CStr))) (i : Nat) (v : CStr) :
    Option (List (Option CStr)) :=
  match a with
  | none => none
  | some arr => if i < arr.length then some (arr.set i (some v)) else none

/-- One entry of the second (collect) pass of pyi_runtime_options_read.
Under the new protocol (use_pep741) the W-flag is stored into
wflags[num_wflags]; the X-flag is stored into xflags[num_wflags] -
the W-flag counter, exactly as in the source - while under the legacy
protocol the X-flag is stored into xflags_w[num_xflags]. After storing
an X-flag, the utf8 and dev aliases are matched and parsed. -/
def collectStep (use_pep741 : Bool) (opts : PyiRuntimeOptions) (e : TOC_ENTRY) :
    Option PyiRuntimeOptions :=
  if e.typecode ≠ Typecode.runtimeOption then some opts
  else if (cstr "W ").isPrefixOf e.name then
    let flag := e.name.drop 2
    if use_pep741 then
      match writeFlag opts.wflags opts.num_wflags flag with
      | none => none
      | some arr => some { opts with wflags := some arr, num_wflags := opts.num_wflags + 1 }
    else
      match writeFlag opts.wflags_w opts.num_wflags flag with
      | none => none
      | some arr => some { opts with wflags_w := some arr, num_wflags := opts.num_wflags + 1 }
  else if (cstr "X ").isPrefixOf e.name then
    let flag := e.name.drop 2
    let stored :=
      if use_pep741 then
        (writeFlag opts.xflags opts.num_wflags flag).map
          (fun arr => { opts with xflags := some arr })
      else
        (writeFlag opts.xflags_w opts.num_xflags flag).map
          (fun arr => { opts with xflags_w := some arr })
    match stored with
    | none => none
    | some opts2 =>
      some { opts2 with
        num_xflags := opts2.num_xflags + 1,
        utf8_mode := pyi_match_and_parse_xflag flag (cstr "utf8") opts2.utf8_mode,
        dev_mode := pyi_match_and_parse_xflag flag (cstr "dev") opts2.dev_mode }
  else some opts

/-- Embeds pyi_runtime_options_read: calloc the record, default
utf8_mode to -1, run the counting pass, allocate the flag arrays of
the active protocol with the counted sizes (the arrays of the other
protocol stay NULL), and run the collect pass. Returns none when the
collect pass would write out of bounds, which in C is undefined
behaviour. -/
def pyi_runtime_options_read (use_pep741 : Bool) (toc : TOC) :
    Option PyiRuntimeOptions :=
  let opts0 := { PyiRuntimeOptions.zeroed with utf8_mode := -1 }
  let scanned := toc.foldl scanStep (opts0, 0, 0)
  let opts1 := scanned.1
  let num_wflags := scanned.2.1
  let num_xflags := scanned.2.2
  let opts2 :=
    if use_pep741 then
      { opts1 with
        wflags := some (List.replicate num_wflags none),
        xflags := some (List.replicate num_xflags none) }
    else
      { opts1 with
        wflags_w := some (List.replicate num_wflags none),
        xflags_w := some (List.replicate num_xflags none) }
  toc.foldlM (collectStep use_pep741) opts2

/-- A runtime-option TOC entry carrying an X-flag. -/
def xflagEntry (flag : CStr) : TOC_ENTRY :=
  { typecode := Typecode.runtimeOption, name := cstr "X " ++ flag,
    offset := 0, uncompressed_length := 0 }

/-- A runtime-option TOC entry carrying a W-flag. -/
def wflagEntry (flag : CStr) : TOC_ENTRY :=
  { typecode := Typecode.runtimeOption, name := cstr "W " ++ flag,
    offset := 0, uncompressed_length := 0 }

/-! ## Helper lemmas about the parser -/

theorem match_key_value_flag_append (name rest : CStr) :
    pyi_match_key_value_flag (name ++ rest) name =
      (match rest with
       | [] => some []
       | c :: r2 => if c = '=' ∨ c = ' ' then some r2 else none) := by
  unfold pyi_match_key_value_flag
  rw [if_pos (List.isPrefixOf_iff_prefix.mpr (List.prefix_append name rest)),
    List.drop_left]
  rfl

/-- Reduction of a Bool-conditioned ite at the literal true, used to
evaluate protocol branches. -/
theorem ite_true_bool {α : Sort _} (a b : α) : (if (true : Bool) then a else b) = a := rfl

/-- Reduction of a Bool-conditioned ite at the literal false, used to
evaluate protocol branches. -/
theorem ite_false_bool {α : Sort _} (a b : α) : (if (false : Bool) then a else b) = b := rfl

theorem foldlM_option_invariant {α σ : Type} (f : σ → α → Option σ) (P : σ → Prop)
    (hf : ∀ s a s2, f s a = some s2 → P s → P s2) :
    ∀ (l : List α) (s s2 : σ), l.foldlM f s = some s2 → P s → P s2 := by
  intro l
  induction l with
  | nil =>
    intro s s2 h hP
    simp only [List.foldlM_nil, pure, Option.some.injEq] at h
    exact h ▸ hP
  | cons a t ih =>
    intro s s2 h hP
    rw [List.foldlM_cons] at h
    obtain ⟨s1, hs1, hrest⟩ := Option.bind_eq_some.mp h
    exact ih s1 s2 hrest (hf s a s1 hs1 hP)

theorem scanStep_arrays (st : PyiRuntimeOptions × Nat × Nat) (e : TOC_ENTRY) :
    (scanStep st e).1.wflags = st.1.wflags ∧ (scanStep st e).1.wflags_w = st.1.wflags_w
    ∧ (scanStep st e).1.xflags = st.1.xflags ∧ (scanStep st e).1.xflags_w = st.1.xflags_w := by
  unfold scanStep
  split_ifs <;> first
    | exact ⟨rfl, rfl, rfl, rfl⟩
    | (split <;> exact ⟨rfl, rfl, rfl, rfl⟩)

theorem scan_arrays (toc : TOC) (st : PyiRuntimeOptions × Nat × Nat) :
    (toc.foldl scanStep st).1.wflags = st.1.wflags
    ∧ (toc.foldl scanStep st).1.wflags_w = st.1.wflags_w
    ∧ (toc.foldl scanStep st).1.xflags = st.1.xflags
    ∧ (toc.foldl scanStep st).1.xflags_w = st.1.xflags_w := by
  induction toc generalizing st with
  | nil => exact ⟨rfl, rfl, rfl, rfl⟩
  | cons e t ih =>
    have h1 := scanStep_arrays st e
    have h2 := ih (scanStep st e)
    simp only [List.foldl_cons]
    exact ⟨h2.1.trans h1.1, h2.2.1.trans h1.2.1, h2.2.2.1.trans h1.2.2.1,
      h2.2.2.2.trans h1.2.2.2⟩

/-- The population invariant of the new-protocol codepath: the
narrow-char arrays are allocated and the wide-char arrays stay NULL. -/
def pep741Populated (o : PyiRuntimeOptions) : Prop :=
  o.wflags.isSome ∧ o.xflags.isSome ∧ o.wflags_w = none ∧ o.xflags_w = none

/-- The population invariant of the legacy codepath: the wide-char
arrays are allocated and the narrow-char arrays stay NULL. -/
def pep587Populated (o : PyiRuntimeOptions) : Prop :=
  o.wflags_w.isSome ∧ o.xflags_w.isSome ∧ o.wflags = none ∧ o.xflags = none

theorem collectStep_pep741_invariant (opts opts2 : PyiRuntimeOptions) (e : TOC_ENTRY)
    (h : collectStep true opts e = some opts2) (hP : pep741Populated opts) :
    pep741Populated opts2 := by
  unfold collectStep at h
  simp only [ite_true_bool] at h
  unfold pep741Populated at hP ⊢
  split_ifs at h
  · exact Option.some.inj h ▸ hP
  · cases hw : writeFlag opts.wflags opts.num_wflags (e.name.drop 2) with
    | none => rw [hw] at h; exact absurd h (by simp)
    | some arr =>
      rw [hw] at h
      cases Option.some.inj h
      exact ⟨by simp, hP.2.1, hP.2.2.1, hP.2.2.2⟩
  · cases hw : writeFlag opts.xflags opts.num_wflags (e.name.drop 2) with
    | none => rw [hw] at h; exact absurd h (by simp)
    | some arr =>
      rw [hw] at h
      simp only [Option.map] at h
      cases Option.some.inj h
      exact ⟨hP.1, by simp, hP.2.2.1, hP.2.2.2⟩
  · exact Option.some.inj h ▸ hP

theorem collectStep_pep587_invariant (opts opts2 : PyiRuntimeOptions) (e : TOC_ENTRY)
    (h : collectStep false opts e = some opts2) (hP : pep587Populated opts) :
    pep587Populated opts2 := by
  unfold collectStep at h
  simp only [ite_false_bool] at h
  unfold pep587Populated at hP ⊢
  split_ifs at h
  · exact Option.some.inj h ▸ hP
  · cases hw : writeFlag opts.wflags_w opts.num_wflags (e.name.drop 2) with
    | none => rw [hw] at h; exact absurd h (by simp)
    | some arr =>
      rw [hw] at h
      cases Option.some.inj h
      exact ⟨by simp, hP.2.1, hP.2.2.1, hP.2.2.2⟩
  · cases hw : writeFlag opts.xflags_w opts.num_xflags (e.name.drop 2) with
    | none => rw [hw] at h; exact absurd h (by simp)
    | some arr =>
      rw [hw] at h
      simp only [Option.map] at h
      cases Option.some.inj h
      exact ⟨hP.1, by simp, hP.2.2.1, hP.2.2.2⟩
  · exact Option.some.inj h ▸ hP

theorem xentry_not_wprefixed (flag : CStr) :
    (cstr "W ").isPrefixOf (cstr "X " ++ flag) = false := rfl

theorem xentry_xprefixed (flag : CStr) :
    (cstr "X ").isPrefixOf (cstr "X " ++ flag) = true :=
  List.isPrefixOf_iff_prefix.mpr (List.prefix_append _ _)

theorem xentry_drop2 (flag : CStr) : (cstr "X " ++ flag).drop 2 = flag := rfl

/-! ## Claims about the runtime options parser -/

/-- Claim C2: in the collect pass of pyi_runtime_options_read under
the new (PEP 741) protocol, every X-flag entry is stored into the
xflags array at the index given by the W-flag counter num_wflags
rather than the X-flag counter num_xflags (first conjunct, for any
in-bounds state). Consequently, on a TOC with two X-flag entries the
second store lands on index 0 again, overwriting the first entry and
leaving slot 1 never written (second conjunct), and on a TOC with one
W-flag entry followed by one X-flag entry the store index 1 exceeds
the bounds of the xflags array that was allocated with num_xflags = 1
slots, an out-of-bounds write modelled as failure (third conjunct),
while the same TOC is processed in bounds by the legacy codepath
(fourth conjunct). -/
theorem claim2_xflag_stored_at_wflag_index :
    (∀ (opts : PyiRuntimeOptions) (arr : List (Option CStr)) (flag : CStr),
        opts.xflags = some arr → opts.num_wflags < arr.length →
        ∃ opts2, collectStep true opts (xflagEntry flag) = some opts2
          ∧ opts2.xflags = some (arr.set opts.num_wflags (some flag)))
    ∧ ((pyi_runtime_options_read true [xflagEntry (cstr "a"), xflagEntry (cstr "b")]).map
        (fun o => (o.xflags, o.num_xflags))
        = some (some [some (cstr "b"), none], 2))
    ∧ pyi_runtime_options_read true [wflagEntry (cstr "w"), xflagEntry (cstr "a")] = none
    ∧ (pyi_runtime_options_read false [wflagEntry (cstr "w"), xflagEntry (cstr "a")]).isSome
      = true := by
  refine ⟨?_, by decide, by decide, by decide⟩
  intro opts arr flag hx hlt
  simp only [collectStep, xflagEntry, xentry_not_wprefixed, xentry_xprefixed, xentry_drop2,
    ite_true_bool, ne_eq, not_true_eq_false, Bool.false_eq_true, if_false, hx, writeFlag,
    if_pos hlt, Option.map]
  exact ⟨_, rfl, rfl⟩

/-- Witness for claim C2 at a concrete state: with no W-flags seen
yet, the X-flag is stored into slot 0 of the single-slot array. -/
theorem claim2_xflag_stored_at_wflag_index_witness :
    ∃ opts2,
      collectStep true { PyiRuntimeOptions.zeroed with xflags := some [none] }
        (xflagEntry (cstr "a")) = some opts2
      ∧ opts2.xflags
        = some (([none] : List (Option CStr)).set
            { PyiRuntimeOptions.zeroed with xflags := some [none] }.num_wflags
            (some (cstr "a"))) :=
  claim2_xflag_stored_at_wflag_index.1 _ [none] (cstr "a") rfl (by decide)

/-- Claim C5: after pyi_runtime_options_read returns successfully,
exactly one of the pairs (wflags, xflags) and (wflags_w, xflags_w) is
populated - the narrow-char pair when the new-protocol flag
has_pep741 is set, the wide-char pair otherwise - and the arrays of
the other pair remain NULL. -/
theorem claim5_exclusive_flag_arrays (use_pep741 : Bool) (toc : TOC)
    (opts : PyiRuntimeOptions)
    (h : pyi_runtime_options_read use_pep741 toc = some opts) :
    (use_pep741 = true → pep741Populated opts)
    ∧ (use_pep741 = false → pep587Populated opts) := by
  constructor
  · intro hp
    subst hp
    unfold pyi_runtime_options_read at h
    simp only [ite_true_bool] at h
    refine foldlM_option_invariant (collectStep true) pep741Populated
      (fun s a s2 hh hpp => collectStep_pep741_invariant s s2 a hh hpp) toc _ opts h ?_
    exact ⟨rfl, rfl, (scan_arrays toc _).2.1, (scan_arrays toc _).2.2.2⟩
  · intro hp
    subst hp
    unfold pyi_runtime_options_read at h
    simp only [ite_false_bool] at h
    refine foldlM_option_invariant (collectStep false) pep587Populated
      (fun s a s2 hh hpp => collectStep_pep587_invariant s s2 a hh hpp) toc _ opts h ?_
    exact ⟨rfl, rfl, (scan_arrays toc _).1, (scan_arrays toc _).2.2.1⟩

/-- Witness for claim C5 at a concrete TOC under each protocol. -/
theorem claim5_exclusive_flag_arrays_witness :
    (∃ opts, pyi_runtime_options_read true [wflagEntry (cstr "w")] = some opts
      ∧ pep741Populated opts)
    ∧ (∃ opts, pyi_runtime_options_read false [wflagEntry (cstr "w")] = some opts
      ∧ pep587Populated opts) := by
  constructor
  · cases hr : pyi_runtime_options_read true [wflagEntry (cstr "w")] with
    | none => exact absurd hr (by decide)
    | some o => exact ⟨o, rfl, (claim5_exclusive_flag_arrays true _ o hr).1 rfl⟩
  · cases hr : pyi_runtime_options_read false [wflagEntry (cstr "w")] with
    | none => exact absurd hr (by decide)
    | some o => exact ⟨o, rfl, (claim5_exclusive_flag_arrays false _ o hr).2 rfl⟩

/-- Claim C9: the parsed options record defaults utf8_mode to the
tri-state -1 (first conjunct); an X-flag entry whose flag is the bare
name utf8 or dev sets the corresponding field to 1 (second conjunct);
a flag name=value sets the field to 0 for the value 0 and to 1 for
any other value (third conjunct); a flag whose name merely has utf8
or dev as a proper prefix, not followed by an equals sign or a space,
leaves the field unchanged (fourth conjunct); and these behaviours
are visible through pyi_runtime_options_read on singleton TOCs (fifth
conjunct). -/
theorem claim9_utf8_dev_xflag_toggles :
    ((pyi_runtime_options_read true []).map (fun o => o.utf8_mode) = some (-1)
      ∧ (pyi_runtime_options_read false []).map (fun o => o.utf8_mode) = some (-1))
    ∧ (∀ d : Int, pyi_match_and_parse_xflag (cstr "utf8") (cstr "utf8") d = 1
        ∧ pyi_match_and_parse_xflag (cstr "dev") (cstr "dev") d = 1)
    ∧ (∀ (v : CStr) (d : Int),
        pyi_match_and_parse_xflag (cstr "utf8=" ++ v) (cstr "utf8") d
          = (if v = cstr "0" then 0 else 1)
        ∧ pyi_match_and_parse_xflag (cstr "dev=" ++ v) (cstr "dev") d
          = (if v = cstr "0" then 0 else 1))
    ∧ (∀ (rest : CStr) (d : Int), rest ≠ [] →
        rest.head? ≠ some '=' → rest.head? ≠ some ' ' →
        pyi_match_and_parse_xflag (cstr "utf8" ++ rest) (cstr "utf8") d = d
        ∧ pyi_match_and_parse_xflag (cstr "dev" ++ rest) (cstr "dev") d = d)
    ∧ ((pyi_runtime_options_read true [xflagEntry (cstr "utf8")]).map (fun o => o.utf8_mode)
        = some 1
      ∧ (pyi_runtime_options_read true [xflagEntry (cstr "utf8=0")]).map (fun o => o.utf8_mode)
        = some 0
      ∧ (pyi_runtime_options_read true [xflagEntry (cstr "utf8=1")]).map (fun o => o.utf8_mode)
        = some 1
      ∧ (pyi_runtime_options_read true [xflagEntry (cstr "utf8json")]).map (fun o => o.utf8_mode)
        = some (-1)
      ∧ (pyi_runtime_options_read false [xflagEntry (cstr "dev")]).map (fun o => o.dev_mode)
        = some 1
      ∧ (pyi_runtime_options_read false [xflagEntry (cstr "dev=0")]).map (fun o => o.dev_mode)
        = some 0
      ∧ (pyi_runtime_options_read false [xflagEntry (cstr "devmode")]).map (fun o => o.dev_mode)
        = some 0) := by
  refine ⟨by decide, fun d => ⟨rfl, rfl⟩, ?_, ?_, by decide⟩
  · intro v d
    constructor <;> cases v with
      | nil => rfl
      | cons c w => rfl
  · intro rest d hne h1 h2
    cases rest with
    | nil => exact absurd rfl hne
    | cons r rs =>
      have hr1 : r ≠ '=' := fun hh => h1 (by simp [hh])
      have hr2 : r ≠ ' ' := fun hh => h2 (by simp [hh])
      constructor <;>
        · unfold pyi_match_and_parse_xflag
          rw [match_key_value_flag_append]
          simp [hr1, hr2]

/-- Witness for claim C9: the proper-prefix names utf8x and devx do
not modify the fields. -/
theorem claim9_utf8_dev_xflag_toggles_witness :
    pyi_match_and_parse_xflag (cstr "utf8" ++ cstr "x") (cstr "utf8") (-1) = -1
    ∧ pyi_match_and_parse_xflag (cstr "dev" ++ cstr "x") (cstr "dev") (-1) = -1 :=
  claim9_utf8_dev_xflag_toggles.2.2.2.1 (cstr "x") (-1) (by decide) (by decide) (by decide)

/-! ## Interpreter configurator (PEP 587 and PEP 741 codepaths) -/

/-- Embeds the _MAKE_VERSION_ID macro: version shifted left by one,
or-ed with the flags value. -/
def MAKE_VERSION_ID (version flags : Nat) : Nat := (version <<< 1) ||| flags

theorem two_mul_or_one (v : Nat) : 2 * v ||| 1 = 2 * v + 1 := by
  have h := Nat.lor_bit false v true 0
  simp [Nat.bit] at h
  simpa [Nat.bit] using h

/-- The macro computes the key 2 * version + flags that the spec
describes, for the flag values 0 and 1 actually passed. -/
theorem MAKE_VERSION_ID_eq (version flags : Nat) (hf : flags ≤ 1) :
    MAKE_VERSION_ID version flags = 2 * version + flags := by
  unfold MAKE_VERSION_ID
  rw [Nat.shiftLeft_eq]
  have hv : version * 2 ^ 1 = 2 * version := by ring
  rw [hv]
  interval_cases flags
  · simp
  · exact two_mul_or_one version |>.trans rfl

/-- The version-specific PyConfig structure layouts carried by the
legacy codepath, one per supported (version, gil-flag) pair. -/
inductive PyConfigLayout where
  | v38
  | v39
  | v310
  | v311
  | v312
  | v313
  | v313_GIL_DISABLED
deriving DecidableEq

/-- Embeds pyi_pyconfig_pep587_create: allocate the config structure
whose layout corresponds to the version id, or return NULL for an
unsupported python version. The nogil_enabled context field is a C
int (0 or 1) passed directly into the macro. -/
def pyi_pyconfig_pep587_create (version : Nat) (nogil_enabled : Nat) :
    Option PyConfigLayout :=
  let version_id := MAKE_VERSION_ID version nogil_enabled
  if version_id = MAKE_VERSION_ID 308 0 then some PyConfigLayout.v38
  else if version_id = MAKE_VERSION_ID 309 0 then some PyConfigLayout.v39
  else if version_id = MAKE_VERSION_ID 310 0 then some PyConfigLayout.v310
  else if version_id = MAKE_VERSION_ID 311 0 then some PyConfigLayout.v311
  else if version_id = MAKE_VERSION_ID 312 0 then some PyConfigLayout.v312
  else if version_id = MAKE_VERSION_ID 313 0 then some PyConfigLayout.v313
  else if version_id = MAKE_VERSION_ID 313 1 then some PyConfigLayout.v313_GIL_DISABLED
  else none

/-- The shared version-id switch of the PEP 587 setters; every setter
in the legacy codepath switches over the same seven cases that
pyi_pyconfig_pep587_create supports and fails on the default case. -/
def pep587_supported (version : Nat) (nogil_enabled : Nat) : Bool :=
  (pyi_pyconfig_pep587_create version nogil_enabled).isSome

/-- The PyConfig and PyInitConfig fields written by the two
set_runtime_options implementations. A list-valued field is none
until the corresponding setter call stores a value into it. -/
structure PyConfigRuntimeFields where
  site_import : Int
  write_bytecode : Int
  configure_c_stdio : Int
  optimization_level : Int
  buffered_stdio : Int
  verbose : Int
  use_hash_seed : Int
  hash_seed : Nat
  dev_mode : Int
  install_signal_handlers : Int
  warnoptions : Option (List (Option CStr))
  xoptions : Option (List (Option CStr))
deriving DecidableEq

/-- The zero-initialized configuration record. -/
def PyConfigRuntimeFields.zeroed : PyConfigRuntimeFields :=
  { site_import := 0, write_bytecode := 0, configure_c_stdio := 0,
    optimization_level := 0, buffered_stdio := 0, verbose := 0,
    use_hash_seed := 0, hash_seed := 0, dev_mode := 0,
    install_signal_handlers := 0, warnoptions := none, xoptions := none }

/-- The C logical negation on int, as in !runtime_options->unbuffered. -/
def cLogicalNot (i : Int) : Int := if i = 0 then 1 else 0

/-- Copying length entries out of a string array, as
PyConfig_SetWideStringList and PyInitConfig_SetStrList do. -/
def setStringList (arr : Option (List (Option CStr))) (len : Nat) : List (Option CStr) :=
  (arr.getD []).take len

/-- Embeds pyi_pyconfig_pep587_set_runtime_options: on a supported
version id, write the common options into the version-specific layout
(warnoptions and xoptions only when the respective count is nonzero)
and return 0; on the default switch case return -1 (modelled none). -/
def pyi_pyconfig_pep587_set_runtime_options (version : Nat) (nogil_enabled : Nat)
    (runtime_options : PyiRuntimeOptions) (config : PyConfigRuntimeFields) :
    Option PyConfigRuntimeFields :=
  if pep587_supported version nogil_enabled then
    some { config with
      site_import := 0
      write_bytecode := 0
      configure_c_stdio := 1
      optimization_level := runtime_options.optimize
      buffered_stdio := cLogicalNot runtime_options.unbuffered
      verbose := runtime_options.verbose
      use_hash_seed := runtime_options.use_hash_seed
      hash_seed := runtime_options.hash_seed
      dev_mode := runtime_options.dev_mode
      warnoptions :=
        if runtime_options.num_wflags ≠ 0 then
          some (setStringList runtime_options.wflags_w runtime_options.num_wflags)
        else config.warnoptions
      xoptions :=
        if runtime_options.num_xflags ≠ 0 then
          some (setStringList runtime_options.xflags_w runtime_options.num_xflags)
        else config.xoptions
      install_signal_handlers := 1 }
  else none

/-- Embeds pyi_pyconfig_pep741_set_runtime_options: write the options
by name through PyInitConfig_SetInt and PyInitConfig_SetStrList. The
value passed for configure_c_stdio is 0, exactly as in the source
(src/unnamed/part_002, line 361); warnoptions and xoptions are always
set, from the narrow-char arrays. The external setter calls are
modelled as succeeding. -/
def pyi_pyconfig_pep741_set_runtime_options (runtime_options : PyiRuntimeOptions)
    (config : PyConfigRuntimeFields) : PyConfigRuntimeFields :=
  { config with
    site_import := 0
    write_bytecode := 0
    configure_c_stdio := 0
    optimization_level := runtime_options.optimize
    buffered_stdio := cLogicalNot runtime_options.unbuffered
    verbose := runtime_options.verbose
    use_hash_seed := runtime_options.use_hash_seed
    hash_seed := runtime_options.hash_seed
    dev_mode := runtime_options.dev_mode
    install_signal_handlers := 1
    warnoptions := some (setStringList runtime_options.wflags runtime_options.num_wflags)
    xoptions := some (setStringList runtime_options.xflags runtime_options.num_xflags) }

/-- Claim C1 (code bug): the two set_runtime_options implementations
do not configure the interpreter identically per the spec mapping.
The legacy implementation enables configured C stdio, writing 1 into
configure_c_stdio (first conjunct), but the new-protocol
implementation passes the value 0 for configure_c_stdio (second
conjunct), while its own comment says it configures the C standard
I/O streams to apply buffered/unbuffered mode; all other mapped
scalar fields of the two implementations agree (third conjunct). -/
theorem claim1_runtime_options_mapping :
    (∀ (version nogil : Nat) (opts : PyiRuntimeOptions)
        (c c2 : PyConfigRuntimeFields),
        pyi_pyconfig_pep587_set_runtime_options version nogil opts c = some c2 →
        c2.configure_c_stdio = 1)
    ∧ (∀ (opts : PyiRuntimeOptions) (c : PyConfigRuntimeFields),
        (pyi_pyconfig_pep741_set_runtime_options opts c).configure_c_stdio = 0)
    ∧ (∀ (version nogil : Nat) (opts : PyiRuntimeOptions)
        (c c2 : PyConfigRuntimeFields),
        pyi_pyconfig_pep587_set_runtime_options version nogil opts c = some c2 →
        (pyi_pyconfig_pep741_set_runtime_options opts c).site_import = c2.site_import
        ∧ (pyi_pyconfig_pep741_set_runtime_options opts c).write_bytecode = c2.write_bytecode
        ∧ (pyi_pyconfig_pep741_set_runtime_options opts c).optimization_level
          = c2.optimization_level
        ∧ (pyi_pyconfig_pep741_set_runtime_options opts c).buffered_stdio = c2.buffered_stdio
        ∧ (pyi_pyconfig_pep741_set_runtime_options opts c).verbose = c2.verbose
        ∧ (pyi_pyconfig_pep741_set_runtime_options opts c).use_hash_seed = c2.use_hash_seed
        ∧ (pyi_pyconfig_pep741_set_runtime_options opts c).hash_seed = c2.hash_seed
        ∧ (pyi_pyconfig_pep741_set_runtime_options opts c).dev_mode = c2.dev_mode
        ∧ (pyi_pyconfig_pep741_set_runtime_options opts c).install_signal_handlers
          = c2.install_signal_handlers) := by
  refine ⟨?_, fun opts c => rfl, ?_⟩ <;>
    · intro version nogil opts c c2 h
      unfold pyi_pyconfig_pep587_set_runtime_options at h
      split_ifs at h <;>
        (cases Option.some.inj h; simp [pyi_pyconfig_pep741_set_runtime_options])

/-- Witness for claim C1: under Python 3.13 without free-threading,
with the all-defaults runtime options and a zeroed config, the legacy
codepath writes configure_c_stdio = 1 and the new codepath writes
configure_c_stdio = 0. -/
theorem claim1_runtime_options_mapping_witness :
    ∃ c2, pyi_pyconfig_pep587_set_runtime_options 313 0 PyiRuntimeOptions.zeroed
        PyConfigRuntimeFields.zeroed = some c2
      ∧ c2.configure_c_stdio = 1
      ∧ (pyi_pyconfig_pep741_set_runtime_options PyiRuntimeOptions.zeroed
          PyConfigRuntimeFields.zeroed).configure_c_stdio = 0 := by
  cases hc : pyi_pyconfig_pep587_set_runtime_options 313 0 PyiRuntimeOptions.zeroed
      PyConfigRuntimeFields.zeroed with
  | none => exact absurd hc (by decide)
  | some c2 =>
    exact ⟨c2, rfl, claim1_runtime_options_mapping.1 313 0 _ _ c2 hc,
      claim1_runtime_options_mapping.2.1 _ _⟩

/-! ## Module search paths -/

/-- The platform classes distinguished by the bootloader sources. -/
inductive Platform where
  | win32
  | darwin
  | cygwin
  | otherPosix
deriving DecidableEq

/-- The PYI_SEPSTR path separator: a backslash on win32, a slash
elsewhere (Cygwin builds do not define the _WIN32 macro). -/
def PYI_SEPSTR (p : Platform) : CStr :=
  if p = Platform.win32 then cstr "\\" else cstr "/"

/-- The PyConfig fields written by the module-search-path
configurators. -/
structure PyConfigPathFields where
  module_search_paths : List CStr
  module_search_paths_set : Int
deriving DecidableEq

/-- Embeds pyi_pyconfig_pep587_set_module_search_paths together with
its helper _pyi_pyconfig_set_module_search_paths: build the three
search paths under the application home directory and, on a supported
version id, store them into the version-specific layout and force
module_search_paths_set to 1; the default switch case returns -1
(modelled none). The snprintf PYI_PATH_MAX overflow guards and the
narrow-to-wide conversion (identity on the character sequence) are
not modelled. -/
def pyi_pyconfig_pep587_set_module_search_paths (p : Platform) (version : Nat)
    (nogil_enabled : Nat) (application_home_dir : CStr) (config : PyConfigPathFields) :
    Option PyConfigPathFields :=
  let python_major := version / 100
  let python_minor := version % 100
  let base_library_path := application_home_dir ++ PYI_SEPSTR p ++ cstr "base_library.zip"
  let lib_dynload_path := application_home_dir ++ PYI_SEPSTR p ++ cstr "python"
    ++ cstr (toString python_major) ++ cstr "." ++ cstr (toString python_minor)
    ++ PYI_SEPSTR p ++ cstr "lib-dynload"
  if pep587_supported version nogil_enabled then
    some { config with
      module_search_paths := [base_library_path, lib_dynload_path, application_home_dir]
      module_search_paths_set := 1 }
  else none

/-- Embeds pyi_pyconfig_pep741_set_module_search_paths: build the
same three paths and set them by name through
PyInitConfig_SetStrList (no version-specific layout, and no
module_search_paths_set field to force). The UTF-8 conversion of the
home directory (identity on the character sequence) and the
PYI_PATH_MAX overflow guards are not modelled. -/
def pyi_pyconfig_pep741_set_module_search_paths (p : Platform) (version : Nat)
    (application_home_dir : CStr) (config : PyConfigPathFields) : PyConfigPathFields :=
  let python_major := version / 100
  let python_minor := version % 100
  let base_library_path := application_home_dir ++ PYI_SEPSTR p ++ cstr "base_library.zip"
  let lib_dynload_path := application_home_dir ++ PYI_SEPSTR p ++ cstr "python"
    ++ cstr (toString python_major) ++ cstr "." ++ cstr (toString python_minor)
    ++ PYI_SEPSTR p ++ cstr "lib-dynload"
  { config with
    module_search_paths := [base_library_path, lib_dynload_path, application_home_dir] }

/-- The module search paths as the spec words them: home joined with
base_library.zip, then home joined with python{major}.{minor} and
lib-dynload where major is version / 100 and minor is version % 100,
then home itself. -/
def moduleSearchPathsSpec (sep home : CStr) (version : Nat) : List CStr :=
  [home ++ sep ++ cstr "base_library.zip",
   home ++ sep ++ cstr "python" ++ cstr (toString (version / 100)) ++ cstr "."
     ++ cstr (toString (version % 100)) ++ sep ++ cstr "lib-dynload",
   home]

/-- Claim C4: both module-search-path configurators set exactly the
three spec paths, in the spec order, and the legacy configurator
forces module_search_paths_set to 1. -/
theorem claim4_module_search_paths (p : Platform) (version nogil : Nat)
    (home : CStr) (config : PyConfigPathFields) :
    (∀ c2, pyi_pyconfig_pep587_set_module_search_paths p version nogil home config = some c2 →
      c2.module_search_paths = moduleSearchPathsSpec (PYI_SEPSTR p) home version
      ∧ c2.module_search_paths.length = 3
      ∧ c2.module_search_paths_set = 1)
    ∧ (pyi_pyconfig_pep741_set_module_search_paths p version home config).module_search_paths
      = moduleSearchPathsSpec (PYI_SEPSTR p) home version
    ∧ ((pyi_pyconfig_pep741_set_module_search_paths p version home config).module_search_paths.length
      = 3) := by
  refine ⟨?_, rfl, rfl⟩
  intro c2 h
  unfold pyi_pyconfig_pep587_set_module_search_paths at h
  split_ifs at h
  cases Option.some.inj h
  exact ⟨rfl, rfl, rfl⟩

/-- Witness for claim C4 at a concrete configuration: Python 3.12 on
a non-Windows platform with home directory /opt/app. -/
theorem claim4_module_search_paths_witness :
    ∃ c2, pyi_pyconfig_pep587_set_module_search_paths Platform.otherPosix 312 0
        (cstr "/opt/app") { module_search_paths := [], module_search_paths_set := 0 }
        = some c2
      ∧ c2.module_search_paths
        = moduleSearchPathsSpec (PYI_SEPSTR Platform.otherPosix) (cstr "/opt/app") 312
      ∧ c2.module_search_paths_set = 1 := by
  cases hc : pyi_pyconfig_pep587_set_module_search_paths Platform.otherPosix 312 0
      (cstr "/opt/app") { module_search_paths := [], module_search_paths_set := 0 } with
  | none => exact absurd hc (by decide)
  | some c2 =>
    have hh := (claim4_module_search_paths Platform.otherPosix 312 0 (cstr "/opt/app")
      { module_search_paths := [], module_search_paths_set := 0 }).1 c2 hc
    exact ⟨c2, rfl, hh.1, hh.2.2⟩

/-! ## Interpreter startup (PEP 587 branch of pyi_python_start_interpreter) -/

/-- The observable steps of the PEP 587 branch of
pyi_python_start_interpreter that matter for version selection. -/
inductive StartEvent where
  | error_reported
  | py_initialize_from_config
deriving DecidableEq

/-- Embeds the PEP 587 branch of pyi_python_start_interpreter at the
granularity of the unsupported-version check: when
pyi_pyconfig_pep587_create returns NULL, the unsupported-version
error is reported and the function jumps to the cleanup label and
returns -1, never reaching the Py_InitializeFromConfig call;
otherwise configuration proceeds and Py_InitializeFromConfig is
called (the intermediate setter calls can only fail through external
runtime calls, modelled as succeeding, and each switches over the
same version table that create validated). -/
def pyi_python_start_interpreter_pep587 (version nogil_enabled : Nat) :
    List StartEvent × Int :=
  match pyi_pyconfig_pep587_create version nogil_enabled with
  | none => ([StartEvent.error_reported], -1)
  | some _ => ([StartEvent.py_initialize_from_config], 0)

/-- Claim C7: the legacy layout is selected by the key
2 * version + gil_flag (first conjunct, proving the C shift/or macro
computes that key); the supported keys are exactly versions 308..313
with gil flag 0 plus version 313 with gil flag 1, and
pyi_pyconfig_pep587_create returns NULL for every other pair (second
conjunct); and whenever create returns NULL,
pyi_python_start_interpreter reports the error and returns -1 without
ever calling Py_InitializeFromConfig (third conjunct). -/
theorem claim7_pep587_version_selection :
    (∀ version flags, flags ≤ 1 → MAKE_VERSION_ID version flags = 2 * version + flags)
    ∧ (∀ (version nogil : Nat), nogil ≤ 1 →
        ((pyi_pyconfig_pep587_create version nogil).isSome = true ↔
          ((nogil = 0 ∧ (version = 308 ∨ version = 309 ∨ version = 310
              ∨ version = 311 ∨ version = 312 ∨ version = 313))
            ∨ (nogil = 1 ∧ version = 313))))
    ∧ (∀ (version nogil : Nat),
        pyi_pyconfig_pep587_create version nogil = none →
        pyi_python_start_interpreter_pep587 version nogil
            = ([StartEvent.error_reported], -1)
          ∧ StartEvent.py_initialize_from_config
            ∉ (pyi_python_start_interpreter_pep587 version nogil).1) := by
  refine ⟨MAKE_VERSION_ID_eq, ?_, ?_⟩
  · intro version nogil hg
    simp only [pyi_pyconfig_pep587_create, MAKE_VERSION_ID_eq version nogil hg,
      show MAKE_VERSION_ID 308 0 = 616 from rfl, show MAKE_VERSION_ID 309 0 = 618 from rfl,
      show MAKE_VERSION_ID 310 0 = 620 from rfl, show MAKE_VERSION_ID 311 0 = 622 from rfl,
      show MAKE_VERSION_ID 312 0 = 624 from rfl, show MAKE_VERSION_ID 313 0 = 626 from rfl,
      show MAKE_VERSION_ID 313 1 = 627 from rfl]
    split_ifs
    all_goals (simp; try omega)
  · intro version nogil h
    unfold pyi_python_start_interpreter_pep587
    rw [h]
    exact ⟨rfl, by decide⟩

/-- Witness for claim C7: Python 3.7 (numeric version 307) has no
layout entry, and the GIL-disabled variant exists only for 3.13. -/
theorem claim7_pep587_version_selection_witness :
    pyi_python_start_interpreter_pep587 307 0 = ([StartEvent.error_reported], -1)
    ∧ (((pyi_pyconfig_pep587_create 313 1).isSome = true
      ↔ ((1 = 0 ∧ (313 = 308 ∨ 313 = 309 ∨ 313 = 310 ∨ 313 = 311 ∨ 313 = 312
          ∨ 313 = 313)) ∨ (1 = 1 ∧ 313 = 313)))) :=
  ⟨(claim7_pep587_version_selection.2.2 307 0 (by decide)).1,
    claim7_pep587_version_selection.2.1 313 1 (by decide)⟩

/-! ## Publishing the PYZ archive hint (pyi_python_install_pyz) -/

/-- Embeds pyi_python_install_pyz: scan the TOC for the first entry
of type PYZ; if none exists, report the error and return -1 setting
no attribute (modelled none); otherwise publish, into the sys module
attribute named _pyinstaller_pyz, the string formed of the archive
filename, a question mark, and the decimal absolute offset
pkg_offset + entry offset. The external PyUnicode and PySys calls are
modelled as succeeding. -/
def pyi_python_install_pyz (archive : ARCHIVE) : Option (CStr × CStr) :=
  match archive.toc.find? (fun e => decide (e.typecode = Typecode.pyz)) with
  | none => none
  | some toc_entry =>
    some (cstr "_pyinstaller_pyz",
      archive.archive_filename ++ cstr "?"
        ++ cstr (toString (archive.pkg_offset + toc_entry.offset)))

/-- Claim C8: pyi_python_install_pyz locates the first TOC entry of
type PYZ and publishes into the sys attribute _pyinstaller_pyz the
string archive-path, question mark, absolute offset, where the
absolute offset is pkg_offset plus the entry offset (first conjunct);
if the TOC has no PYZ entry, it fails and sets no attribute (second
conjunct). -/
theorem claim8_install_pyz (archive : ARCHIVE) :
    (∀ (pre : TOC) (e : TOC_ENTRY) (post : TOC),
      archive.toc = pre ++ e :: post →
      (∀ e2 ∈ pre, e2.typecode ≠ Typecode.pyz) →
      e.typecode = Typecode.pyz →
      pyi_python_install_pyz archive
        = some (cstr "_pyinstaller_pyz",
            archive.archive_filename ++ cstr "?"
              ++ cstr (toString (archive.pkg_offset + e.offset))))
    ∧ ((∀ e2 ∈ archive.toc, e2.typecode ≠ Typecode.pyz) →
        pyi_python_install_pyz archive = none) := by
  constructor
  · intro pre e post htoc hpre he
    unfold pyi_python_install_pyz
    rw [htoc, List.find?_append]
    have hnone : pre.find? (fun e2 => decide (e2.typecode = Typecode.pyz)) = none :=
      List.find?_eq_none.mpr (fun x hx => by simpa using hpre x hx)
    rw [hnone, List.find?_cons_of_pos post (by simpa using he)]
    rfl
  · intro hall
    unfold pyi_python_install_pyz
    rw [List.find?_eq_none.mpr (fun x hx => by simpa using hall x hx)]

/-- Witness for claim C8 at a concrete archive: the PYZ entry at
in-archive offset 100 of an embedded archive with pkg_offset 4000 is
published as path?4100, and an archive without a PYZ entry fails. -/
theorem claim8_install_pyz_witness :
    pyi_python_install_pyz
        { toc := [{ typecode := Typecode.pymodule, name := cstr "m", offset := 7,
                    uncompressed_length := 1 },
                  { typecode := Typecode.pyz, name := cstr "out00-PYZ.pyz", offset := 100,
                    uncompressed_length := 5 }],
          pkg_offset := 4000, archive_filename := cstr "/opt/app/run" }
      = some (cstr "_pyinstaller_pyz", cstr "/opt/app/run" ++ cstr "?" ++ cstr (toString (4000 + 100)))
    ∧ pyi_python_install_pyz
        { toc := [{ typecode := Typecode.pymodule, name := cstr "m", offset := 7,
                    uncompressed_length := 1 }],
          pkg_offset := 4000, archive_filename := cstr "/opt/app/run" }
      = none := by
  constructor
  · exact (claim8_install_pyz _).1
      [{ typecode := Typecode.pymodule, name := cstr "m", offset := 7,
         uncompressed_length := 1 }]
      { typecode := Typecode.pyz, name := cstr "out00-PYZ.pyz", offset := 100,
        uncompressed_length := 5 }
      [] rfl (by decide) rfl
  · exact (claim8_install_pyz _).2 (by decide)

/-! ## Process-level resolution in pyi_main -/

/-- The process-level constants of pyi_main.h. -/
def PYI_PROCESS_LEVEL_UNKNOWN : Int := -2

def PYI_PROCESS_LEVEL_PARENT_NEEDS_RESTART : Int := -1

def PYI_PROCESS_LEVEL_PARENT : Int := 0

def PYI_PROCESS_LEVEL_MAIN : Int := 1

def PYI_PROCESS_LEVEL_SUBPROCESS : Int := 2

/-- True on the platforms where the sources compile the
_WIN32 / APPLE / CYGWIN branches of the role switch. -/
def platform_is_windows_macos_cygwin (p : Platform) : Bool :=
  p = Platform.win32 ∨ p = Platform.darwin ∨ p = Platform.cygwin

/-- Embeds the role-resolution switch of pyi_main (the switch over
pyi_ctx parent_process_level): returns the assigned process level, or
none for the default case, where pyi_main reports the invalid parent
process level and returns -1. The PARENT_NEEDS_RESTART case is
compiled only on POSIX systems other than macOS and Cygwin; on the
other platforms that parent level falls through to the default
case. -/
def pyi_main_resolve_process_level (p : Platform) (is_onefile has_splash suppress_splash : Bool)
    (parent_process_level : Int) : Option Int :=
  if parent_process_level = PYI_PROCESS_LEVEL_UNKNOWN then
    some
      (if is_onefile then
        (if platform_is_windows_macos_cygwin p then PYI_PROCESS_LEVEL_PARENT
         else if has_splash ∧ ¬suppress_splash then PYI_PROCESS_LEVEL_PARENT_NEEDS_RESTART
         else PYI_PROCESS_LEVEL_PARENT)
      else
        (if platform_is_windows_macos_cygwin p then PYI_PROCESS_LEVEL_MAIN
         else PYI_PROCESS_LEVEL_PARENT_NEEDS_RESTART))
  else if parent_process_level = PYI_PROCESS_LEVEL_PARENT_NEEDS_RESTART
      ∧ ¬platform_is_windows_macos_cygwin p then
    some (if is_onefile then PYI_PROCESS_LEVEL_PARENT else PYI_PROCESS_LEVEL_MAIN)
  else if parent_process_level = PYI_PROCESS_LEVEL_PARENT then
    some PYI_PROCESS_LEVEL_MAIN
  else if parent_process_level = PYI_PROCESS_LEVEL_MAIN then
    some PYI_PROCESS_LEVEL_SUBPROCESS
  else none

/-- The role table exactly as the claim states it, with splash
eligibility as a single input: observed parent level UNKNOWN yields
PARENT for single-file on win32/darwin/cygwin, PARENT_NEEDS_RESTART
for single-file other-posix with splash, PARENT for single-file
other-posix without splash, MAIN for directory win32/darwin/cygwin,
and PARENT_NEEDS_RESTART for directory other-posix; parent level
PARENT_NEEDS_RESTART on other-posix yields PARENT in single-file mode
and MAIN in directory mode; parent level PARENT yields MAIN; parent
level MAIN yields SUBPROCESS; every other parent level is rejected. -/
def roleTableSpec (p : Platform) (is_onefile splash_eligible : Bool) (parent : Int) :
    Option Int :=
  if parent = -2 then
    some
      (if is_onefile then
        (if platform_is_windows_macos_cygwin p then 0
         else if splash_eligible then -1
         else 0)
      else
        (if platform_is_windows_macos_cygwin p then 1 else -1))
  else if parent = -1 then
    (if platform_is_windows_macos_cygwin p then none
     else some (if is_onefile then 0 else 1))
  else if parent = 0 then some 1
  else if parent = 1 then some 2
  else none

/-- Claim C3: for every combination of observed parent process level,
single-file vs directory mode, splash state, and platform class, the
role-resolution switch of pyi_main assigns exactly the level given by
the spec role table, with splash eligibility meaning splash resources
exist and are not suppressed. -/
theorem claim3_role_resolution (p : Platform) (is_onefile has_splash suppress_splash : Bool)
    (parent : Int) :
    pyi_main_resolve_process_level p is_onefile has_splash suppress_splash parent
      = roleTableSpec p is_onefile (has_splash ∧ ¬suppress_splash) parent := by
  unfold pyi_main_resolve_process_level roleTableSpec
  unfold PYI_PROCESS_LEVEL_UNKNOWN PYI_PROCESS_LEVEL_PARENT_NEEDS_RESTART
    PYI_PROCESS_LEVEL_PARENT PYI_PROCESS_LEVEL_MAIN PYI_PROCESS_LEVEL_SUBPROCESS
  by_cases h1 : parent = -2
  · simp [h1]
  · by_cases h2 : parent = -1
    · by_cases h3 : platform_is_windows_macos_cygwin p = true
      · simp [h1, h2, h3]
      · simp [h1, h2, h3]
    · simp [h1, h2]

/-! ## Publication of the process level and the spawn of the child -/

/-- The externally visible events of the role-resolution phase of
pyi_main: assignment of the process level, publication of the level
into the _PYI_PARENT_PROCESS_LEVEL environment variable, and the
spawn of the onefile child performed later by
_pyi_main_onefile_parent via pyi_utils_create_child. -/
inductive MainEvent where
  | assign_level (level : Int)
  | publish_level (value : CStr)
  | spawn_child
deriving DecidableEq

/-- Decimal representation written by snprintf with the %d format. -/
def intDecimalRepr (i : Int) : CStr := cstr (toString i)

/-- Embeds pyi_main from the role-resolution switch to the branch
into _pyi_main_onefile_parent, as the ordered sequence of the events
above: the level is assigned; when it is below SUBPROCESS its decimal
representation is written into _PYI_PARENT_PROCESS_LEVEL (otherwise
the variable is left unchanged); and only afterwards, when the
process is the onefile parent, the child process is spawned. The
pyi_main steps in between (runtime options, temporary directory,
library search path, splash screen) neither write that variable nor
spawn a child, so they produce no events at this granularity. -/
def pyi_main_role_events (p : Platform) (is_onefile has_splash suppress_splash : Bool)
    (parent : Int) : Option (Int × List MainEvent) :=
  match pyi_main_resolve_process_level p is_onefile has_splash suppress_splash parent with
  | none => none
  | some level =>
    some (level,
      [MainEvent.assign_level level]
      ++ (if level < PYI_PROCESS_LEVEL_SUBPROCESS
          then [MainEvent.publish_level (intDecimalRepr level)] else [])
      ++ (if is_onefile ∧ level = PYI_PROCESS_LEVEL_PARENT
          then [MainEvent.spawn_child] else []))

/-- Claim C6: for every successful role assignment in pyi_main, when
the assigned level is strictly below SUBPROCESS (2) its decimal
representation is published to _PYI_PARENT_PROCESS_LEVEL (first
conjunct); when the level is SUBPROCESS nothing is published and the
variable is left unchanged (second conjunct); and the publication
happens before any child process is spawned: a trace that spawns a
child is exactly assignment of level PARENT, then publication, then
spawn (third conjunct). -/
theorem claim6_publish_level (p : Platform)
    (is_onefile has_splash suppress_splash : Bool) (parent level : Int)
    (events : List MainEvent)
    (h : pyi_main_role_events p is_onefile has_splash suppress_splash parent
      = some (level, events)) :
    (level < 2 → MainEvent.publish_level (intDecimalRepr level) ∈ events)
    ∧ (level = 2 → ∀ v, MainEvent.publish_level v ∉ events)
    ∧ (MainEvent.spawn_child ∈ events →
        events = [MainEvent.assign_level 0,
          MainEvent.publish_level (intDecimalRepr 0), MainEvent.spawn_child]) := by
  unfold pyi_main_role_events at h
  cases hr : pyi_main_resolve_process_level p is_onefile has_splash suppress_splash parent with
  | none => rw [hr] at h; exact absurd h (by simp)
  | some l =>
    rw [hr] at h
    simp only [Option.some.injEq, Prod.mk.injEq] at h
    obtain ⟨hl, he⟩ := h
    subst hl
    subst he
    unfold PYI_PROCESS_LEVEL_SUBPROCESS PYI_PROCESS_LEVEL_PARENT
    refine ⟨?_, ?_, ?_⟩
    · intro hlt
      simp [hlt]
    · intro h2 v
      subst h2
      simp
    · intro hs
      by_cases hc : is_onefile = true ∧ l = 0
      · obtain ⟨hc1, hc2⟩ := hc
        subst hc2
        simp [hc1]
      · exfalso
        simp only [List.mem_append, List.mem_singleton] at hs
        rcases hs with (hs | hs) | hs
        · exact absurd hs (by simp)
        · revert hs
          split_ifs <;> simp
        · revert hs
          rw [if_neg (fun hcond => hc ⟨by simpa using hcond.1, hcond.2⟩)]
          simp

/-- Witness for claim C6: single-file mode on win32 with no splash
and no inherited level assigns PARENT, publishes 0, then spawns. -/
theorem claim6_publish_level_witness :
    ∃ events,
      pyi_main_role_events Platform.win32 true false false (-2) = some (0, events)
      ∧ MainEvent.publish_level (intDecimalRepr 0) ∈ events
      ∧ events = [MainEvent.assign_level 0, MainEvent.publish_level (intDecimalRepr 0),
          MainEvent.spawn_child] := by
  have h0 : pyi_main_role_events Platform.win32 true false false (-2)
      = some (0, [MainEvent.assign_level 0, MainEvent.publish_level (intDecimalRepr 0),
          MainEvent.spawn_child]) := by decide
  have hh := claim6_publish_level Platform.win32 true false false (-2) 0 _ h0
  exact ⟨_, h0, hh.1 (by decide), hh.2.2 (by decide)⟩

/-! ## Parsing of the inherited _PYI_PARENT_PROCESS_LEVEL value -/

/-- Whitespace recognized by strtol (isspace in the C locale). -/
def isSpaceChar (c : Char) : Bool :=
  c = ' ' ∨ c = '\t' ∨ c = '\n' ∨ c = '\r' ∨ c = '\x0b' ∨ c = '\x0c'

/-- Hexadecimal digit value. -/
def hexDigitVal (c : Char) : Option Nat :=
  if '0' ≤ c ∧ c ≤ '9' then some (c.toNat - '0'.toNat)
  else if 'a' ≤ c ∧ c ≤ 'f' then some (c.toNat - 'a'.toNat + 10)
  else if 'A' ≤ c ∧ c ≤ 'F' then some (c.toNat - 'A'.toNat + 10)
  else none

/-- Octal digit value. -/
def octDigitVal (c : Char) : Option Nat :=
  if '0' ≤ c ∧ c ≤ '7' then some (c.toNat - '0'.toNat) else none

/-- Model of strtol(s, &endptr, 0): skip leading whitespace, read an
optional sign, detect the base from a 0x or 0X head (hexadecimal) or
a leading 0 (octal), consume the maximal run of digits of that base,
and return the signed value together with the rest of the string, at
which endptr is left. When no digit is consumed the value is 0 and
endptr is the original string (for a bare 0x head, endptr is left
after the initial zero). The clamping of out-of-range values to
LONG_MIN and LONG_MAX is not modelled; the caller immediately
truncates the result to signed char. -/
def strtol0 (s : CStr) : Int × CStr :=
  let s1 := s.dropWhile (fun c => isSpaceChar c)
  let signed : Int × CStr :=
    match s1 with
    | '-' :: r => (-1, r)
    | '+' :: r => (1, r)
    | _ => (1, s1)
  let sign := signed.1
  let s2 := signed.2
  match s2 with
  | '0' :: c :: rest =>
    if c = 'x' ∨ c = 'X' then
      let r := scanDigits hexDigitVal 16 rest 0
      if r.2.1 = 0 then (0, c :: rest) else (sign * r.1, r.2.2)
    else
      let r := scanDigits octDigitVal 8 (c :: rest) 0
      (sign * r.1, r.2.2)
  | '0' :: [] => (0, [])
  | _ =>
    let r := scanDigits decDigitVal 10 s2 0
    if r.2.1 = 0 then (0, s) else (sign * r.1, r.2.2)

/-- The (signed char) cast applied to the long value returned by
strtol: truncation to 8 bits in the twos-complement range. -/
def signedCharCast (v : Int) : Int :=
  let m := v % 256
  if m ≥ 128 then m - 256 else m

/-- Embeds the _PYI_PARENT_PROCESS_LEVEL reading in pyi_main: an
unset variable or an empty value yields PYI_PROCESS_LEVEL_UNKNOWN;
otherwise the value is parsed with strtol in base 0 and cast to
signed char, and any character left at endptr makes pyi_main report
the invalid value and return -1 (modelled none). -/
def pyi_main_parse_parent_level (env_var_value : Option CStr) : Option Int :=
  match env_var_value with
  | none => some PYI_PROCESS_LEVEL_UNKNOWN
  | some [] => some PYI_PROCESS_LEVEL_UNKNOWN
  | some (c :: rest) =>
    let r := strtol0 (c :: rest)
    if r.2 = [] then some (signedCharCast r.1) else none

/-- The composition of the environment parsing and role resolution in
pyi_main: a parse failure aborts pyi_main with -1 before any level is
assigned. -/
def pyi_main_level_phase (p : Platform) (is_onefile has_splash suppress_splash : Bool)
    (env_var_value : Option CStr) : Option (Int × List MainEvent) :=
  match pyi_main_parse_parent_level env_var_value with
  | none => none
  | some parent => pyi_main_role_events p is_onefile has_splash suppress_splash parent

/-- Claim C10: an unset _PYI_PARENT_PROCESS_LEVEL and one set to the
empty string are treated identically, both yielding the parent level
UNKNOWN = -2 (first two conjuncts); a nonempty value fails exactly
when strtol leaves unconsumed characters at endptr, so a numeric
prefix followed by any non-numeric character makes pyi_main fail
with -1 (third conjunct, and the fourth propagates a concrete failing
value through the level phase for every platform and mode); and
because the value is parsed with strtol in base 0, hexadecimal and
octal notations are accepted in addition to decimal (last four
conjuncts). -/
theorem claim10_parent_level_parsing :
    pyi_main_parse_parent_level none = some (-2)
    ∧ pyi_main_parse_parent_level (some []) = some (-2)
    ∧ (∀ s : CStr, s ≠ [] →
        (pyi_main_parse_parent_level (some s) = none ↔ (strtol0 s).2 ≠ []))
    ∧ (∀ (p : Platform) (is_onefile has_splash suppress_splash : Bool),
        pyi_main_level_phase p is_onefile has_splash suppress_splash (some (cstr "1a"))
          = none)
    ∧ pyi_main_parse_parent_level (some (cstr "0x1")) = some 1
    ∧ pyi_main_parse_parent_level (some (cstr "010")) = some 8
    ∧ pyi_main_parse_parent_level (some (cstr "2")) = some 2
    ∧ pyi_main_parse_parent_level (some (cstr "-1")) = some (-1) := by
  refine ⟨by decide, by decide, ?_, ?_, by decide, by decide, by decide, by decide⟩
  · intro s hne
    cases s with
    | nil => exact absurd rfl hne
    | cons c rest =>
      simp only [pyi_main_parse_parent_level]
      by_cases he : (strtol0 (c :: rest)).2 = []
      · simp [he]
      · simp [he]
  · intro p is_onefile has_splash suppress_splash
    unfold pyi_main_level_phase
    rw [show pyi_main_parse_parent_level (some (cstr "1a")) = none from by decide]

/-- Witness for claim C10: the value 5x has a numeric prefix followed
by a non-numeric character and is rejected. -/
theorem claim10_parent_level_parsing_witness :
    pyi_main_parse_parent_level (some (cstr "5x")) = none :=
  (claim10_parent_level_parsing.2.2.1 (cstr "5x") (by decide)).mpr (by decide)

end PyTerm
